import Mathlib

/-!
Verification of the signal decision pipeline and the Settings page broker
connection handler of the llm-angeltradin-bot repository.

The repository ships the Settings page source (`frontend/src/pages/Settings.jsx`)
directly; the decision-pipeline agents (Indicator Scorer, Regime Classifier,
Decision Engine, Risk Auditor) are described by the specification and the
architecture documents but their source files are not part of the checkout,
so those components are modelled from the specification text, keeping every
threshold and ordering the specification and the in-repo architecture report
record.
-/

/-! ## Settings page: broker connection handler (`connectWithTotp`) -/

/-- One broker account row of the Settings page state
(`brokerAccounts` array element), as used by `connectWithTotp`:
an id, a broker name and a connection status string. -/
structure BrokerAccount where
  accId : Nat
  broker : String
  status : String
deriving DecidableEq, Repr

/-- The component state that `connectWithTotp` reads and writes:
the account list, the TOTP modal visibility, the in-flight flag,
the error message, the id being connected and the typed TOTP code. -/
structure SettingsState where
  brokerAccounts : List BrokerAccount
  showTotpModal : Bool
  connecting : Bool
  connectionError : String
  connectingAccountId : Option Nat
  totpCode : String
deriving DecidableEq, Repr

/-- Outcome of the `fetch('/api/broker/connect')` call:
`ok` (res.ok), `httpError` (non-ok response with a detail string),
or `threw` (the fetch itself raised, e.g. backend unreachable). -/
inductive ConnectOutcome where
  | ok
  | httpError (detail : String)
  | threw
deriving DecidableEq, Repr

/-- Mark the account matching `connectingAccountId` as connected,
exactly the `brokerAccounts.map(a => a.id === connectingAccountId ? { ...a,
status: 'connected' } : a)` update of `Settings.jsx`. -/
def markConnected (accounts : List BrokerAccount) (target : Option Nat) :
    List BrokerAccount :=
  accounts.map fun a =>
    if some a.accId = target then { a with status := "connected" } else a

/-- State transition of `connectWithTotp` in `Settings.jsx` (lines 131-176):
a 6-digit guard, then `setConnecting(true)` / clear error, then one branch per
fetch outcome — success and the catch branch both mark the matching account
connected and close the modal, the non-ok branch only records the error detail
— and finally `setConnecting(false)`. -/
def connectWithTotp (s : SettingsState) (outcome : ConnectOutcome) :
    SettingsState :=
  if s.totpCode.length ≠ 6 then
    { s with connectionError := "Please enter 6-digit TOTP code" }
  else
    match outcome with
    | .ok =>
        { s with
            brokerAccounts := markConnected s.brokerAccounts s.connectingAccountId
            showTotpModal := false
            connecting := false
            connectionError := "" }
    | .httpError detail =>
        { s with
            connecting := false
            connectionError := if detail = "" then "Connection failed" else detail }
    | .threw =>
        { s with
            brokerAccounts := markConnected s.brokerAccounts s.connectingAccountId
            showTotpModal := false
            connecting := false
            connectionError := "" }

/-! ## Regime Classifier -/

/-- Directional agreement observed across the trend indicators. -/
inductive Dir where
  | up
  | down
  | flat
deriving DecidableEq, Repr

/-- The five market regimes of the RegimeState data model. -/
inductive Regime where
  | trendingUp
  | trendingDown
  | choppy
  | volatile
  | volatileDirectionless
deriving DecidableEq, Repr

/-- Modelled from the spec: the indicator inputs of the Regime Classifier
(its source file is not in the checkout) — the directional-strength
indicator (ADX), whether the moving averages are aligned, whether the
momentum indicator confirms the direction, the directional agreement, and
the normalized ATR percentage. -/
structure RegimeInput where
  adx : ℚ
  emaAligned : Bool
  macdConfirms : Bool
  dir : Dir
  atrPct : ℚ
deriving DecidableEq, Repr

/-- Modelled from the spec: trend-strength score as a capped sum of
independently-triggered fixed contributions (ADX above threshold 40 points,
moving-average alignment 30 points, momentum confirmation 30 points),
clamped to [0,100]. -/
def trendStrengthScore (i : RegimeInput) : ℚ :=
  min 100 ((if 25 < i.adx then (40 : ℚ) else 0) +
    (if i.emaAligned then (30 : ℚ) else 0) +
    (if i.macdConfirms then (30 : ℚ) else 0))

/-- Modelled from the spec: the regime decision table — ADX below the low
threshold gives choppy, ATR% above its threshold gives volatile (split into
volatile-directionless when ADX is high without directional agreement),
trend-strength at or above 70 with a clear direction gives trending, and
all remaining ties resolve to the conservative choppy regime. -/
def classifyRegime (i : RegimeInput) : Regime :=
  if i.adx < 20 then .choppy
  else if 2 < i.atrPct then
    (if 25 < i.adx ∧ i.dir = .flat then .volatileDirectionless else .volatile)
  else if 70 ≤ trendStrengthScore i ∧ i.dir ≠ .flat then
    (if i.dir = .up then .trendingUp else .trendingDown)
  else .choppy

/-- Modelled from the spec: the per-cycle regime detector step — it is
handed the previous cycle's regime (if any) but derives the regime fresh
every cycle with no memory of the prior regime. -/
def regimeStep (prev : Option Regime) (i : RegimeInput) : Regime :=
  let _ := prev
  classifyRegime i

/-! ## Indicator Scorer -/

/-- A completed OHLCV bar of a Snapshot. -/
structure Bar where
  opn : ℚ
  high : ℚ
  low : ℚ
  close : ℚ
  volume : ℚ
deriving DecidableEq, Repr

/-- Per-symbol snapshot: the ordered completed bars of the three
timeframes plus the latest price from the in-progress bar (indicators are
computed only over completed bars). -/
structure Snapshot where
  bars5m : List Bar
  bars15m : List Bar
  bars1h : List Bar
  livePrice : ℚ
deriving DecidableEq, Repr

/-- Closing prices of a bar list. -/
def closesOf (bars : List Bar) : List ℚ :=
  bars.map (·.close)

/-- Exponential moving average seeded with the first value,
smoothing factor 2/(n+1). -/
def emaVal (n : ℕ) (xs : List ℚ) : ℚ :=
  match xs with
  | [] => 0
  | x :: rest => rest.foldl (fun acc y => acc + (2 / ((n : ℚ) + 1)) * (y - acc)) x

/-- Last closing price of a bar list (0 when empty). -/
def lastClose (bars : List Bar) : ℚ :=
  ((closesOf bars).getLast?).getD 0

/-- Successive differences of a price series. -/
def priceDiffs (xs : List ℚ) : List ℚ :=
  List.zipWith (fun a b => b - a) xs (xs.drop 1)

/-- Last `n` entries of a list. -/
def lastN (n : ℕ) (xs : List ℚ) : List ℚ :=
  xs.drop (xs.length - n)

/-- Maximum of a rational list (0 when empty). -/
def maxList (xs : List ℚ) : ℚ :=
  match xs with
  | [] => 0
  | x :: rest => rest.foldl max x

/-- Minimum of a rational list (0 when empty). -/
def minList (xs : List ℚ) : ℚ :=
  match xs with
  | [] => 0
  | x :: rest => rest.foldl min x

/-- Modelled from the spec: the overbought/oversold momentum indicator
(14-period relative strength) over the closing prices, from average gains
and losses of the last 14 price changes. -/
def rsiVal (bars : List Bar) : ℚ :=
  let ds := lastN 14 (priceDiffs (closesOf bars))
  let gains := (ds.map (fun d => max d 0)).sum
  let losses := (ds.map (fun d => max (-d) 0)).sum
  if losses = 0 then 100 else 100 - 100 / (1 + gains / losses)

/-- Raw stochastic value of a 9-bar window: position of the last close
inside the window's high/low range, scaled to [0,100]. -/
def rsvOf (w : List Bar) : ℚ :=
  let hh := maxList (w.map (·.high))
  let ll := minList (w.map (·.low))
  if hh = ll then 50 else (lastClose w - ll) / (hh - ll) * 100

/-- Modelled from the spec: the stochastic-style indicator's J line —
9-bar raw stochastic values smoothed into K and D lines (each a 2/3-1/3
blend seeded at 50), with J = 3K - 2D. -/
def kdjJ (bars : List Bar) : ℚ :=
  let rsvs := (List.range bars.length).filterMap fun i =>
    if 8 ≤ i then some (rsvOf ((bars.drop (i - 8)).take 9)) else none
  let kd := rsvs.foldl
    (fun (kd : ℚ × ℚ) r =>
      let k := (2 * kd.1 + r) / 3
      (k, (2 * kd.2 + k) / 3))
    (50, 50)
  3 * kd.1 - 2 * kd.2

/-- True ranges of consecutive bar pairs. -/
def trueRanges (bars : List Bar) : List ℚ :=
  List.zipWith
    (fun prev cur =>
      max (cur.high - cur.low) (max |cur.high - prev.close| |cur.low - prev.close|))
    bars (bars.drop 1)

/-- 14-period average true range. -/
def atrVal (bars : List Bar) : ℚ :=
  (lastN 14 (trueRanges bars)).sum / 14

/-- Normalized average-true-range percentage of the last close. -/
def atrPctOf (bars : List Bar) : ℚ :=
  if lastClose bars = 0 then 0 else atrVal bars / lastClose bars * 100

/-- Modelled from the spec: the trend score — price against a short
(20-period) and a long (60-period) moving average; full bullish alignment
scores +60, full bearish -60, partial alignment ±30, none 0. -/
def trendScoreOf (bars : List Bar) : ℚ :=
  let p := lastClose bars
  let eShort := emaVal 20 (closesOf bars)
  let eLong := emaVal 60 (closesOf bars)
  if eShort < p ∧ eLong < eShort then 60
  else if p < eShort ∧ eShort < eLong then -60
  else if eShort < p then 30
  else if p < eShort then -30
  else 0

/-- Modelled from the spec: the oscillator score — fixed band magnitudes,
not continuously scaled: oversold momentum (RSI below 30) adds +40,
overbought (above 70) adds -40; stochastic J below 20 adds +30, above 80
adds -30. -/
def oscScoreOf (bars : List Bar) : ℚ :=
  (if rsiVal bars < 30 then (40 : ℚ) else if 70 < rsiVal bars then -40 else 0) +
    (if kdjJ bars < 20 then (30 : ℚ) else if 80 < kdjJ bars then -30 else 0)

/-- Per-timeframe scores produced by the Indicator Scorer. -/
structure ScoreSet where
  trend : ℚ
  osc : ℚ
  vol : ℚ
deriving DecidableEq, Repr

/-- Scorer result: either an explicit insufficient-data marker or a
computed ScoreSet — never a fabricated zero score. -/
inductive ScoreResult where
  | insufficient
  | ok (s : ScoreSet)
deriving DecidableEq, Repr

/-- Longest indicator lookback window (the 60-period moving average). -/
def longestLookback : ℕ := 60

/-- Modelled from the spec: the Indicator Scorer for one timeframe — with
fewer completed bars than the longest lookback it returns the explicit
insufficient-data marker, otherwise the computed trend, oscillator and
volatility scores. -/
def scoreTimeframe (bars : List Bar) : ScoreResult :=
  if bars.length < longestLookback then .insufficient
  else .ok { trend := trendScoreOf bars, osc := oscScoreOf bars, vol := atrPctOf bars }

/-! ## Decision Engine -/

/-- Terminal actions of the Decision Engine. -/
inductive TradeAction where
  | long
  | short
  | hold
deriving DecidableEq, Repr

/-- The eight weighted voting inputs of the Decision Engine. -/
inductive Signal where
  | trend5m
  | trend15m
  | trend1h
  | osc5m
  | osc15m
  | osc1h
  | prophet
  | sentiment
deriving DecidableEq, Fintype, Repr

/-- Modelled from the spec: the fixed per-signal weights of the weighted
voting step (short-timeframe trend 0.03, medium 0.12, long 0.30, short
oscillator 0.03, medium 0.07, long 0.10, predictor 0.05, sentiment 0.25). -/
def signalWeight : Signal → ℚ
  | .trend5m => 3 / 100
  | .trend15m => 12 / 100
  | .trend1h => 30 / 100
  | .osc5m => 3 / 100
  | .osc15m => 7 / 100
  | .osc1h => 10 / 100
  | .prophet => 5 / 100
  | .sentiment => 25 / 100

/-- Modelled from the spec: the weighted score — each available signal's
score times its weight, an unavailable input contributing weight times
zero (its weight is redistributed to zero, not renormalized). -/
def weightedScore (f : Signal → Option ℚ) : ℚ :=
  ∑ s : Signal, signalWeight s * (f s).getD 0

/-- Trend score of a scorer result, excluded when insufficient. -/
def trendOf : ScoreResult → Option ℚ
  | .insufficient => none
  | .ok s => some s.trend

/-- Oscillator score of a scorer result, excluded when insufficient. -/
def oscOf : ScoreResult → Option ℚ
  | .insufficient => none
  | .ok s => some s.osc

/-- Direction of a signed trend score. -/
def dirOfScore (q : ℚ) : Dir :=
  if 0 < q then .up else if q < 0 then .down else .flat

/-- Multi-period alignment classes. -/
inductive AlignKind where
  | strong
  | partialA
  | noAlign
deriving DecidableEq, Repr

/-- Modelled from the spec: multi-period alignment — all three timeframe
trend directions agreeing is strong, long+medium agreeing is partial,
anything else none. -/
def alignmentOf (t1h t15m t5m : Option ℚ) : AlignKind :=
  match t1h, t15m, t5m with
  | some a, some b, some c =>
      if dirOfScore a = dirOfScore b ∧ dirOfScore b = dirOfScore c ∧
          dirOfScore a ≠ .flat then .strong
      else if dirOfScore a = dirOfScore b ∧ dirOfScore a ≠ .flat then .partialA
      else .noAlign
  | some a, some b, none =>
      if dirOfScore a = dirOfScore b ∧ dirOfScore a ≠ .flat then .partialA
      else .noAlign
  | _, _, _ => .noAlign

/-- Modelled from the spec: threshold reduction for strong or partial
alignment (a fixed offset of 2, unchanged otherwise). -/
def alignOffset : AlignKind → ℚ
  | .strong => 2
  | .partialA => 2
  | .noAlign => 0

/-- Modelled from the spec: the regime-specific long entry threshold of
the score-to-action mapping (trending-up 22, trending-down 32, all other
regimes the base 30). -/
def baseLongThreshold : Regime → ℚ
  | .trendingUp => 22
  | .trendingDown => 32
  | .choppy => 30
  | .volatile => 30
  | .volatileDirectionless => 30

/-- Modelled from the spec: the regime-specific short entry threshold of
the score-to-action mapping (trending-up 32, trending-down 18, all other
regimes the base 30). -/
def baseShortThreshold : Regime → ℚ
  | .trendingUp => 32
  | .trendingDown => 18
  | .choppy => 30
  | .volatile => 30
  | .volatileDirectionless => 30

/-- Long threshold with the unknown regime falling back to the base 30. -/
def longThresholdOf (r : Option Regime) : ℚ :=
  match r with
  | some x => baseLongThreshold x
  | none => 30

/-- Short threshold with the unknown regime falling back to the base 30. -/
def shortThresholdOf (r : Option Regime) : ℚ :=
  match r with
  | some x => baseShortThreshold x
  | none => 30

/-- The full per-cycle input of the Decision Engine: the three timeframe
scorer results plus the auxiliary signals, regime, trap flags, volume
statistics and overtrading state. -/
structure EngineInput where
  score5m : ScoreResult
  score15m : ScoreResult
  score1h : ScoreResult
  sentiment : Option ℚ
  prophet : Option ℚ
  regime : Option Regime
  positionPct : ℚ
  rvol : ℚ
  adx : ℚ
  bullTrap : Bool
  fomoTop : Bool
  panicBottom : Bool
  cyclesSinceLast : ℕ
  entries6h : ℕ
  lossStreakCooldown : Bool
deriving DecidableEq, Repr

/-- Modelled from the spec: the overtrading guard — minimum cycle gap of 4
since the last same-symbol entry, at most 2 entries in the rolling 6-hour
window, and the consecutive-loss cooldown. -/
def guardBlocks (e : EngineInput) : Prop :=
  e.cyclesSinceLast < 4 ∨ 2 ≤ e.entries6h ∨ e.lossStreakCooldown = true

instance (e : EngineInput) : Decidable (guardBlocks e) := by
  unfold guardBlocks; infer_instance

/-- All three timeframes carry the insufficient-data marker. -/
def allInsufficient (e : EngineInput) : Prop :=
  e.score5m = .insufficient ∧ e.score15m = .insufficient ∧ e.score1h = .insufficient

instance (e : EngineInput) : Decidable (allInsufficient e) := by
  unfold allInsufficient; infer_instance

/-- The weighted voting inputs assembled from an engine input, insufficient
timeframes excluded. -/
def engineSignals (e : EngineInput) : Signal → Option ℚ
  | .trend5m => trendOf e.score5m
  | .trend15m => trendOf e.score15m
  | .trend1h => trendOf e.score1h
  | .osc5m => oscOf e.score5m
  | .osc15m => oscOf e.score15m
  | .osc1h => oscOf e.score1h
  | .prophet => e.prophet
  | .sentiment => e.sentiment

/-- Modelled from the spec: the Decision Engine action — overtrading guard,
data-quality degrade to hold when every timeframe is insufficient, the
choppy middle-zone early filter, then the regime branch (mean reversion on
oscillator extremes in choppy markets, weighted score against
alignment-adjusted regime thresholds elsewhere), and the volume, trend and
trap secondary filters. -/
def decideAction (e : EngineInput) : TradeAction :=
  if guardBlocks e then .hold
  else if allInsufficient e then .hold
  else
    let ws := weightedScore (engineSignals e)
    if e.regime = some .choppy ∧ 40 ≤ e.positionPct ∧ e.positionPct ≤ 60 ∧
        |ws| < 10 then .hold
    else
      let off := alignOffset (alignmentOf (trendOf e.score1h) (trendOf e.score15m)
        (trendOf e.score5m))
      let raw : TradeAction :=
        if e.regime = some .choppy then
          match oscOf e.score1h with
          | some o => if 40 ≤ o then .long else if o ≤ -40 then .short else .hold
          | none => .hold
        else
          if longThresholdOf e.regime - off ≤ ws then .long
          else if ws ≤ -(shortThresholdOf e.regime - off) then .short
          else .hold
      if raw = .hold then .hold
      else if e.rvol < 1 / 2 then .hold
      else if e.adx < 20 ∧ e.rvol < 1 then .hold
      else if raw = .long ∧ (e.bullTrap ∨ e.fomoTop) then .hold
      else if raw = .short ∧ e.panicBottom then .hold
      else raw

/-- The non-scorer inputs of one engine cycle, kept apart so the scorer
and the engine can be composed over a Snapshot. -/
structure EngineAux where
  sentiment : Option ℚ
  prophet : Option ℚ
  regime : Option Regime
  positionPct : ℚ
  rvol : ℚ
  adx : ℚ
  bullTrap : Bool
  fomoTop : Bool
  panicBottom : Bool
  cyclesSinceLast : ℕ
  entries6h : ℕ
  lossStreakCooldown : Bool
deriving DecidableEq, Repr

/-- Scorer-to-engine composition: score each timeframe of the Snapshot and
assemble the engine input. -/
def pipelineInput (snap : Snapshot) (aux : EngineAux) : EngineInput :=
  { score5m := scoreTimeframe snap.bars5m
    score15m := scoreTimeframe snap.bars15m
    score1h := scoreTimeframe snap.bars1h
    sentiment := aux.sentiment
    prophet := aux.prophet
    regime := aux.regime
    positionPct := aux.positionPct
    rvol := aux.rvol
    adx := aux.adx
    bullTrap := aux.bullTrap
    fomoTop := aux.fomoTop
    panicBottom := aux.panicBottom
    cyclesSinceLast := aux.cyclesSinceLast
    entries6h := aux.entries6h
    lossStreakCooldown := aux.lossStreakCooldown }

/-! ## Risk Auditor -/

/-- A trade decision handed from the Decision Engine to the Risk Auditor:
directional action, confidence in [0,100], the weighted score and the
proposed entry, stop-loss, take-profit and position size. -/
structure TradeDecision where
  action : TradeAction
  confidence : ℚ
  wscore : ℚ
  entryPrice : ℚ
  stopLoss : ℚ
  takeProfit : ℚ
  positionSize : ℚ
deriving DecidableEq, Repr

/-- Direction of an already-open position. -/
inductive Side where
  | long
  | short
deriving DecidableEq, Repr

/-- The opening action matching an open position's direction. -/
def actionOfSide : Side → TradeAction
  | .long => .long
  | .short => .short

/-- The full input of the Risk Auditor cascade: the decision under audit
plus account state, regime, open position, sentiment, volatility,
oscillator, range position, margin and trap context. -/
structure RiskInput where
  decision : TradeDecision
  balance : ℚ
  regime : Option Regime
  existingPosition : Option Side
  strongSetup : Bool
  shortConsecLosses : ℕ
  sentimentBullish : Bool
  atr : ℚ
  atrPct : ℚ
  oscScore : ℚ
  positionPct : ℚ
  marginRequired : ℚ
  leverage : ℚ
  totalRiskPct : ℚ
  bullTrap : Bool
deriving DecidableEq, Repr

/-- Reason codes of the Risk Auditor's cascade rules. -/
inductive RiskReason where
  | insufficientBalance
  | regimeGate
  | shortGate
  | positionGate
  | oscGate
  | rrGate
  | duplicatePosition
  | reversePosition
  | marginGate
  | leverageGate
  | trapGate
  | sizeWarning
  | riskWarning
deriving DecidableEq, Repr

/-- The Risk Auditor's verdict: pass flag, the first blocking reason,
the corrected stop when auto-correction applied without blocking, and
non-blocking warnings. -/
structure RiskVerdict where
  pass : Bool
  reason : Option RiskReason
  correctedStop : Option ℚ
  warnings : List RiskReason
deriving DecidableEq, Repr

/-- A terminal blocking verdict with its reason. -/
def blockVerdict (r : RiskReason) : RiskVerdict :=
  { pass := false, reason := some r, correctedStop := none, warnings := [] }

/-- Modelled from the spec: rule (3), the regime-confidence gate — unknown
regime with low confidence, volatile regime with low confidence, or choppy
regime with confidence below the higher bar of 60. -/
def regimeGateBlocks (i : RiskInput) : Prop :=
  (i.regime = none ∧ i.decision.confidence < 50) ∨
    (i.regime = some .volatile ∧ i.decision.confidence < 50) ∨
    (i.regime = some .choppy ∧ i.decision.confidence < 60)

instance (i : RiskInput) : Decidable (regimeGateBlocks i) := by
  unfold regimeGateBlocks; infer_instance

/-- Modelled from the spec: rule (4), the short-specific stricter gates —
confidence under 55, no strong setup with confidence under 65, two or more
recent losing shorts, volatile-directionless without a strong setup,
bullish sentiment, or ATR above 3% with low confidence. -/
def shortGateBlocks (i : RiskInput) : Prop :=
  i.decision.action = .short ∧
    (i.decision.confidence < 55 ∨
      (i.strongSetup = false ∧ i.decision.confidence < 65) ∨
      2 ≤ i.shortConsecLosses ∨
      (i.regime = some .volatileDirectionless ∧ i.strongSetup = false) ∨
      i.sentimentBullish = true ∨
      (3 < i.atrPct ∧ i.decision.confidence < 50))

instance (i : RiskInput) : Decidable (shortGateBlocks i) := by
  unfold shortGateBlocks; infer_instance

/-- Modelled from the spec: rule (5), the position-in-range gate —
middle-zone entries (40-60%) with low confidence, longs above the 80%
extreme with low confidence, and shorts at the low extreme. -/
def positionGateBlocks (i : RiskInput) : Prop :=
  (40 ≤ i.positionPct ∧ i.positionPct ≤ 60 ∧ i.decision.confidence < 50) ∨
    (i.decision.action = .long ∧ 80 < i.positionPct ∧ i.decision.confidence < 50) ∨
    (i.decision.action = .short ∧ i.positionPct < 20)

instance (i : RiskInput) : Decidable (positionGateBlocks i) := by
  unfold positionGateBlocks; infer_instance

/-- Modelled from the spec: rule (6), the oscillator-contradiction gate —
long into a strongly overbought oscillator (below -70) or short into a
strongly oversold one (above +50). -/
def oscGateBlocks (i : RiskInput) : Prop :=
  (i.decision.action = .long ∧ i.oscScore < -70) ∨
    (i.decision.action = .short ∧ 50 < i.oscScore)

instance (i : RiskInput) : Decidable (oscGateBlocks i) := by
  unfold oscGateBlocks; infer_instance

/-- Proposed reward of the decision: distance from entry to take-profit in
the trade's direction. -/
def rewardOf (d : TradeDecision) : ℚ :=
  match d.action with
  | .long => d.takeProfit - d.entryPrice
  | .short => d.entryPrice - d.takeProfit
  | .hold => 0

/-- Proposed risk of the decision: distance from entry to stop-loss. -/
def riskOf (d : TradeDecision) : ℚ :=
  |d.entryPrice - d.stopLoss|

/-- Modelled from the spec: rule (7), the reward/risk gate — a
reward-to-risk ratio below the minimum of 1.15 blocks. -/
def rrBlocks (i : RiskInput) : Prop :=
  rewardOf i.decision < (23 / 20) * riskOf i.decision

instance (i : RiskInput) : Decidable (rrBlocks i) := by
  unfold rrBlocks; infer_instance

/-- Minimum stop-loss distance, 0.2% of entry. -/
def minSLPct : ℚ := 1 / 500

/-- Maximum stop-loss distance, 2.5% of entry. -/
def maxSLPct : ℚ := 1 / 40

/-- Modelled from the spec: the ATR-derived stop distance — 1.5 times ATR,
bounded below by the minimum and above by the maximum percentage of the
entry price. -/
def slDistance (entry atr : ℚ) : ℚ :=
  min (max ((3 / 2) * atr) (minSLPct * entry)) (maxSLPct * entry)

/-- Modelled from the spec: when the proposed stop needs fixing — on the
wrong side of entry, or closer than the minimum distance, or farther than
the maximum distance. -/
def slNeedsFix : TradeAction → ℚ → ℚ → Prop
  | .long, entry, sl =>
      entry ≤ sl ∨ entry - sl < minSLPct * entry ∨ maxSLPct * entry < entry - sl
  | .short, entry, sl =>
      sl ≤ entry ∨ sl - entry < minSLPct * entry ∨ maxSLPct * entry < sl - entry
  | .hold, _, _ => False

instance : (a : TradeAction) → (entry sl : ℚ) → Decidable (slNeedsFix a entry sl)
  | .long, _, _ => by unfold slNeedsFix; infer_instance
  | .short, _, _ => by unfold slNeedsFix; infer_instance
  | .hold, _, _ => by unfold slNeedsFix; infer_instance

/-- Modelled from the spec: rule (9), stop-loss sanity auto-correction —
an invalid stop is recomputed from the ATR-derived bounded distance (below
entry for longs, above entry for shorts) instead of blocking; a valid stop
is returned unchanged. -/
def correctStop (a : TradeAction) (entry atr sl : ℚ) : ℚ :=
  match a with
  | .long => if slNeedsFix .long entry sl then entry - slDistance entry atr else sl
  | .short => if slNeedsFix .short entry sl then entry + slDistance entry atr else sl
  | .hold => sl

/-- Modelled from the spec: rule (10), margin sufficiency — required
margin above 95% of balance blocks. -/
def marginBlocks (i : RiskInput) : Prop :=
  (19 / 20) * i.balance < i.marginRequired

instance (i : RiskInput) : Decidable (marginBlocks i) := by
  unfold marginBlocks; infer_instance

/-- Modelled from the spec: rule (10), the leverage limit of 12. -/
def leverageBlocks (i : RiskInput) : Prop :=
  12 < i.leverage

instance (i : RiskInput) : Decidable (leverageBlocks i) := by
  unfold leverageBlocks; infer_instance

/-- Modelled from the spec: rule (12), the trap-pattern final audit —
a long during a flagged bull trap blocks. -/
def trapBlocks (i : RiskInput) : Prop :=
  i.decision.action = .long ∧ i.bullTrap = true

instance (i : RiskInput) : Decidable (trapBlocks i) := by
  unfold trapBlocks; infer_instance

/-- Modelled from the spec: rule (11), the non-blocking warnings — a
position above 35% of balance and aggregate risk above 1.2%. -/
def riskWarnings (i : RiskInput) : List RiskReason :=
  (if (7 / 20) * i.balance < i.decision.positionSize then [RiskReason.sizeWarning]
    else []) ++
    (if 6 / 5 < i.totalRiskPct then [RiskReason.riskWarning] else [])

/-- Modelled from the spec: the corrected stop the verdict carries — the
recomputed stop when rule (9) fired, nothing when the proposed stop was
already valid. -/
def correctedStopOf (i : RiskInput) : Option ℚ :=
  if slNeedsFix i.decision.action i.decision.entryPrice i.decision.stopLoss
  then some (correctStop i.decision.action i.decision.entryPrice i.atr
    i.decision.stopLoss)
  else none

/-- Modelled from the spec: the Risk Auditor's ordered, short-circuiting
cascade — (1) hold auto-passes, (2) zero balance, (3) regime gate,
(4) short gates, (5) position gate, (6) oscillator gate, (7) reward/risk,
(8) duplicate- and reverse-position blocks, (9) stop auto-correction,
(10) margin and leverage, (11) warnings, (12) trap audit — returning the
first blocking reason, or a pass with corrected parameters. -/
def riskAudit (i : RiskInput) : RiskVerdict :=
  if i.decision.action = .hold then { pass := true, reason := none, correctedStop := none, warnings := [] }
  else if i.balance ≤ 0 then blockVerdict .insufficientBalance
  else if regimeGateBlocks i then blockVerdict .regimeGate
  else if shortGateBlocks i then blockVerdict .shortGate
  else if positionGateBlocks i then blockVerdict .positionGate
  else if oscGateBlocks i then blockVerdict .oscGate
  else if rrBlocks i then blockVerdict .rrGate
  else
    match i.existingPosition with
    | some side =>
        if actionOfSide side = i.decision.action then blockVerdict .duplicatePosition
        else blockVerdict .reversePosition
    | none =>
        if marginBlocks i then blockVerdict .marginGate
        else if leverageBlocks i then blockVerdict .leverageGate
        else if trapBlocks i then blockVerdict .trapGate
        else { pass := true, reason := none, correctedStop := correctedStopOf i,
               warnings := riskWarnings i }

/-- The opening action opposite to an open position's direction. -/
def oppositeAction : Side → TradeAction
  | .long => .short
  | .short => .long

/-! ## Helper lemmas -/

/-- Every signal weight is non-negative. -/
theorem signalWeight_nonneg (s : Signal) : 0 ≤ signalWeight s := by
  cases s <;> norm_num [signalWeight]

/-- For a positive entry price the ATR-derived stop distance lies between
the minimum and maximum percentage bounds. -/
theorem slDistance_mem (entry atr : ℚ) (h : 0 < entry) :
    minSLPct * entry ≤ slDistance entry atr ∧ slDistance entry atr ≤ maxSLPct * entry := by
  constructor
  · apply le_min
    · exact le_max_right _ _
    · unfold minSLPct maxSLPct
      nlinarith
  · exact min_le_right _ _

/-- A long stop produced by the correction is itself valid. -/
theorem not_needsFix_long (entry atr : ℚ) (h : 0 < entry) :
    ¬ slNeedsFix .long entry (entry - slDistance entry atr) := by
  obtain ⟨h1, h2⟩ := slDistance_mem entry atr h
  have hlo : 0 < minSLPct * entry := by unfold minSLPct; positivity
  simp only [slNeedsFix]
  push_neg
  refine ⟨by linarith, by linarith, by linarith⟩

/-- A short stop produced by the correction is itself valid. -/
theorem not_needsFix_short (entry atr : ℚ) (h : 0 < entry) :
    ¬ slNeedsFix .short entry (entry + slDistance entry atr) := by
  obtain ⟨h1, h2⟩ := slDistance_mem entry atr h
  have hlo : 0 < minSLPct * entry := by unfold minSLPct; positivity
  simp only [slNeedsFix]
  push_neg
  refine ⟨by linarith, by linarith, by linarith⟩

/-! ## Claim theorems -/

/-- C8: every regime the classifier produces is one of the five RegimeState
values, and the trend-strength score always lies in the interval [0,100]. -/
theorem c8_regime_invariant (i : RegimeInput) :
    0 ≤ trendStrengthScore i ∧ trendStrengthScore i ≤ 100 ∧
      (classifyRegime i = .trendingUp ∨ classifyRegime i = .trendingDown ∨
        classifyRegime i = .choppy ∨ classifyRegime i = .volatile ∨
        classifyRegime i = .volatileDirectionless) := by
  refine ⟨?_, min_le_left _ _, ?_⟩
  · unfold trendStrengthScore
    apply le_min (by norm_num)
    split_ifs <;> norm_num
  · cases h : classifyRegime i <;> simp

/-- C6 counterexample: two regime inputs with identical trend-strength
score, identical directional agreement and identical ATR% but different
ADX values are classified differently (choppy versus volatile), so the
regime is not a function of the triple alone. -/
theorem c6_counterexample :
    trendStrengthScore ⟨15, true, false, .up, 3⟩ =
        trendStrengthScore ⟨22, true, false, .up, 3⟩ ∧
      RegimeInput.dir ⟨15, true, false, .up, 3⟩ =
        RegimeInput.dir ⟨22, true, false, .up, 3⟩ ∧
      RegimeInput.atrPct ⟨15, true, false, .up, 3⟩ =
        RegimeInput.atrPct ⟨22, true, false, .up, 3⟩ ∧
      classifyRegime ⟨15, true, false, .up, 3⟩ ≠
        classifyRegime ⟨22, true, false, .up, 3⟩ := by
  refine ⟨by norm_num [trendStrengthScore], rfl, rfl, ?_⟩
  norm_num [classifyRegime, trendStrengthScore]
  decide

/-- C6 (amended): regime classification is a deterministic pure function
of the full indicator input (ADX, moving-average alignment, momentum
confirmation, directional agreement, ATR%), with no dependence on the
previous cycle's regime: the detector step ignores the prior regime it is
handed. -/
theorem c6_regime_pure (p1 p2 : Option Regime) (i : RegimeInput) :
    regimeStep p1 i = regimeStep p2 i ∧ regimeStep p1 i = classifyRegime i :=
  ⟨rfl, rfl⟩

/-- C9 counterexample: trending-down's short threshold (18) differs from
trending-up's long threshold (22), so the claimed full mirror symmetry of
the regime thresholds fails. -/
theorem c9_counterexample :
    ¬ (baseShortThreshold .trendingDown = baseLongThreshold .trendingUp ∧
        baseLongThreshold .trendingDown = baseShortThreshold .trendingUp) := by
  rintro ⟨h1, -⟩
  norm_num [baseShortThreshold, baseLongThreshold] at h1

/-- C9 (amended): only one pairing of the trending thresholds is mirrored —
trending-down's long threshold equals trending-up's short threshold (32) —
while trending-down's short threshold is 18 and trending-up's long
threshold is 22, an asymmetric pair of offsets from the base 30. -/
theorem c9_thresholds :
    baseLongThreshold .trendingDown = baseShortThreshold .trendingUp ∧
      baseLongThreshold .trendingUp = 22 ∧ baseShortThreshold .trendingUp = 32 ∧
      baseLongThreshold .trendingDown = 32 ∧ baseShortThreshold .trendingDown = 18 := by
  norm_num [baseLongThreshold, baseShortThreshold]

/-- C4: the weighted score is monotonically non-decreasing in each single
input score with all other inputs held fixed — updating one signal from a
smaller to a larger available score never decreases the weighted total
(in particular for the long-timeframe trend signal). -/
theorem c4_weighted_monotone (f : Signal → Option ℚ) (s : Signal) (v w : ℚ)
    (h : v ≤ w) :
    weightedScore (Function.update f s (some v)) ≤
      weightedScore (Function.update f s (some w)) := by
  unfold weightedScore
  apply Finset.sum_le_sum
  intro t _
  by_cases ht : t = s
  · subst ht
    simp only [Function.update_same, Option.getD_some]
    exact mul_le_mul_of_nonneg_left h (signalWeight_nonneg t)
  · rw [Function.update_noteq ht, Function.update_noteq ht]

/-- C4 witness: raising the long-timeframe trend score from 10 to 20 with
every other signal absent does not decrease the weighted total. -/
theorem c4_witness :
    weightedScore (Function.update (fun _ => none) Signal.trend1h (some 10)) ≤
      weightedScore (Function.update (fun _ => none) Signal.trend1h (some 20)) :=
  c4_weighted_monotone (fun _ => none) Signal.trend1h 10 20 (by norm_num)

/-- C5: the stop-loss auto-correction is idempotent for every action and
every trade proposal — correcting an already-corrected stop returns it
unchanged (the recomputed stop depends only on entry and ATR, so a second
pass either accepts it or recomputes the identical value). -/
theorem c5_correct_idempotent (a : TradeAction) (entry atr sl : ℚ) :
    correctStop a entry atr (correctStop a entry atr sl) =
      correctStop a entry atr sl := by
  cases a with
  | hold => rfl
  | long =>
      by_cases hfix : slNeedsFix .long entry sl
      · simp only [correctStop, if_pos hfix]
        by_cases h2 : slNeedsFix .long entry (entry - slDistance entry atr)
        · rw [if_pos h2]
        · rw [if_neg h2]
      · simp only [correctStop, if_neg hfix]
  | short =>
      by_cases hfix : slNeedsFix .short entry sl
      · simp only [correctStop, if_pos hfix]
        by_cases h2 : slNeedsFix .short entry (entry + slDistance entry atr)
        · rw [if_pos h2]
        · rw [if_neg h2]
      · simp only [correctStop, if_neg hfix]

/-- C1: a decision proposing exposure opposite in direction to an existing
position on the symbol is never approved — for every confidence, weighted
score and regime the Risk Auditor's verdict is blocking. -/
theorem c1_reverse_blocked (i : RiskInput) (s : Side)
    (hpos : i.existingPosition = some s)
    (hact : i.decision.action = oppositeAction s) :
    (riskAudit i).pass = false := by
  have hhold : ¬ (i.decision.action = .hold) := by
    rw [hact]; cases s <;> decide
  unfold riskAudit
  rw [hpos, if_neg hhold]
  by_cases h2 : i.balance ≤ 0
  · rw [if_pos h2]; rfl
  · rw [if_neg h2]
    by_cases h3 : regimeGateBlocks i
    · rw [if_pos h3]; rfl
    · rw [if_neg h3]
      by_cases h4 : shortGateBlocks i
      · rw [if_pos h4]; rfl
      · rw [if_neg h4]
        by_cases h5 : positionGateBlocks i
        · rw [if_pos h5]; rfl
        · rw [if_neg h5]
          by_cases h6 : oscGateBlocks i
          · rw [if_pos h6]; rfl
          · rw [if_neg h6]
            by_cases h7 : rrBlocks i
            · rw [if_pos h7]; rfl
            · rw [if_neg h7]
              show (if actionOfSide s = i.decision.action
                then blockVerdict .duplicatePosition
                else blockVerdict .reversePosition).pass = false
              by_cases h8 : actionOfSide s = i.decision.action
              · rw [if_pos h8]; rfl
              · rw [if_neg h8]; rfl

/-- C1 witness: a short proposal while a long position is open is blocked
even with confidence 90, a strongly positive setup and a trending regime. -/
theorem c1_witness :
    (riskAudit
      { decision :=
          { action := .short, confidence := 90, wscore := -50, entryPrice := 100,
            stopLoss := 102, takeProfit := 90, positionSize := 1 }
        balance := 1000
        regime := some .trendingDown
        existingPosition := some .long
        strongSetup := true
        shortConsecLosses := 0
        sentimentBullish := false
        atr := 1
        atrPct := 1
        oscScore := 0
        positionPct := 50
        marginRequired := 10
        leverage := 1
        totalRiskPct := 1
        bullTrap := false }).pass = false :=
  c1_reverse_blocked _ .long rfl rfl

/-- C2: the cascade short-circuits in its fixed order — whenever a decision
triggers both the short-specific gates of rule (4) and the reward/risk gate
of rule (7) (and is not already blocked by the earlier balance or regime
rules), the deciding blocking reason is the rule-(4) short-gate reason. -/
theorem c2_short_gate_first (i : RiskInput)
    (hbal : 0 < i.balance)
    (hreg : ¬ regimeGateBlocks i)
    (hshort : shortGateBlocks i)
    (hrr : rrBlocks i) :
    (riskAudit i).reason = some RiskReason.shortGate ∧
      (riskAudit i).pass = false := by
  have hhold : ¬ (i.decision.action = .hold) := by
    rw [hshort.1]; decide
  unfold riskAudit
  rw [if_neg hhold, if_neg (not_le.mpr hbal), if_neg hreg, if_pos hshort]
  exact ⟨rfl, rfl⟩

/-- C2 witness: a low-confidence short whose reward/risk ratio is also
below 1.15 is blocked with the short-gate reason, not the reward/risk
reason. -/
theorem c2_witness :
    (riskAudit
      { decision :=
          { action := .short, confidence := 40, wscore := -20, entryPrice := 100,
            stopLoss := 102, takeProfit := 99, positionSize := 1 }
        balance := 1000
        regime := some .trendingUp
        existingPosition := none
        strongSetup := true
        shortConsecLosses := 0
        sentimentBullish := false
        atr := 1
        atrPct := 1
        oscScore := 0
        positionPct := 50
        marginRequired := 10
        leverage := 1
        totalRiskPct := 1
        bullTrap := false }).reason = some RiskReason.shortGate ∧
    (riskAudit
      { decision :=
          { action := .short, confidence := 40, wscore := -20, entryPrice := 100,
            stopLoss := 102, takeProfit := 99, positionSize := 1 }
        balance := 1000
        regime := some .trendingUp
        existingPosition := none
        strongSetup := true
        shortConsecLosses := 0
        sentimentBullish := false
        atr := 1
        atrPct := 1
        oscScore := 0
        positionPct := 50
        marginRequired := 10
        leverage := 1
        totalRiskPct := 1
        bullTrap := false }).pass = false :=
  c2_short_gate_first _ (by norm_num)
    (by unfold regimeGateBlocks; decide)
    (by unfold shortGateBlocks; refine ⟨rfl, Or.inl ?_⟩; norm_num)
    (by unfold rrBlocks rewardOf riskOf; norm_num)

/-- C3: for a Snapshot with fewer completed bars than the longest indicator
lookback on every timeframe, the Scorer returns the explicit
insufficient-data marker for each timeframe and the Decision Engine's
action for the symbol that cycle is hold. -/
theorem c3_insufficient_hold (snap : Snapshot) (aux : EngineAux)
    (h5 : snap.bars5m.length < longestLookback)
    (h15 : snap.bars15m.length < longestLookback)
    (h1h : snap.bars1h.length < longestLookback) :
    scoreTimeframe snap.bars5m = .insufficient ∧
      scoreTimeframe snap.bars15m = .insufficient ∧
      scoreTimeframe snap.bars1h = .insufficient ∧
      decideAction (pipelineInput snap aux) = .hold := by
  have s5 : scoreTimeframe snap.bars5m = .insufficient := by
    unfold scoreTimeframe; rw [if_pos h5]
  have s15 : scoreTimeframe snap.bars15m = .insufficient := by
    unfold scoreTimeframe; rw [if_pos h15]
  have s1h : scoreTimeframe snap.bars1h = .insufficient := by
    unfold scoreTimeframe; rw [if_pos h1h]
  have hins : allInsufficient (pipelineInput snap aux) := by
    unfold allInsufficient pipelineInput
    exact ⟨s5, s15, s1h⟩
  refine ⟨s5, s15, s1h, ?_⟩
  unfold decideAction
  by_cases hg : guardBlocks (pipelineInput snap aux)
  · rw [if_pos hg]
  · rw [if_neg hg, if_pos hins]

/-- C3 witness: an empty snapshot yields insufficient-data markers on all
three timeframes and a hold action. -/
theorem c3_witness :
    scoreTimeframe (Snapshot.bars5m ⟨[], [], [], 100⟩) = .insufficient ∧
      scoreTimeframe (Snapshot.bars15m ⟨[], [], [], 100⟩) = .insufficient ∧
      scoreTimeframe (Snapshot.bars1h ⟨[], [], [], 100⟩) = .insufficient ∧
      decideAction (pipelineInput ⟨[], [], [], 100⟩
        ⟨none, none, none, 50, 1, 25, false, false, false, 10, 0, false⟩) = .hold :=
  c3_insufficient_hold ⟨[], [], [], 100⟩
    ⟨none, none, none, 50, 1, 25, false, false, false, 10, 0, false⟩
    (by decide) (by decide) (by decide)

/-- C7: a long decision whose proposed stop sits at or above the entry
price, and that no other cascade rule blocks, receives a pass verdict
carrying a corrected stop equal to entry minus the ATR-derived distance
bounded by the minimum and maximum percentages — not a blocking verdict. -/
theorem c7_wrong_side_pass (i : RiskInput)
    (hact : i.decision.action = .long)
    (hsl : i.decision.entryPrice ≤ i.decision.stopLoss)
    (hbal : 0 < i.balance)
    (hreg : ¬ regimeGateBlocks i)
    (hposg : ¬ positionGateBlocks i)
    (hosc : ¬ oscGateBlocks i)
    (hrr : ¬ rrBlocks i)
    (hdup : i.existingPosition = none)
    (hmargin : ¬ marginBlocks i)
    (hlev : ¬ leverageBlocks i)
    (htrap : ¬ trapBlocks i) :
    (riskAudit i).pass = true ∧
      (riskAudit i).correctedStop =
        some (i.decision.entryPrice - slDistance i.decision.entryPrice i.atr) := by
  have hhold : ¬ (i.decision.action = .hold) := by rw [hact]; decide
  have hshort : ¬ shortGateBlocks i := by
    intro hc
    have h1 := hc.1
    rw [hact] at h1
    exact absurd h1 (by decide)
  have hfixl : slNeedsFix .long i.decision.entryPrice i.decision.stopLoss := by
    simp only [slNeedsFix]
    exact Or.inl hsl
  have hfix : slNeedsFix i.decision.action i.decision.entryPrice
      i.decision.stopLoss := by
    rw [hact]; exact hfixl
  unfold riskAudit
  rw [if_neg hhold, if_neg (not_le.mpr hbal), if_neg hreg, if_neg hshort,
    if_neg hposg, if_neg hosc, if_neg hrr, hdup]
  show ((if marginBlocks i then blockVerdict .marginGate
    else if leverageBlocks i then blockVerdict .leverageGate
    else if trapBlocks i then blockVerdict .trapGate
    else { pass := true, reason := none, correctedStop := correctedStopOf i,
           warnings := riskWarnings i }).pass = true ∧ _)
  rw [if_neg hmargin, if_neg hlev, if_neg htrap]
  refine ⟨rfl, ?_⟩
  show correctedStopOf i = _
  unfold correctedStopOf
  rw [if_pos hfix, hact]
  simp only [correctStop, if_pos hfixl]

/-- C7 witness: a long at entry 100 with stop proposed at 105 (wrong side),
take-profit 110, ample balance and no other rule firing passes with the
corrected stop 100 - min(max(1.5*2, 0.2), 2.5) = 97.5. -/
theorem c7_witness :
    (riskAudit
      { decision :=
          { action := .long, confidence := 80, wscore := 50, entryPrice := 100,
            stopLoss := 105, takeProfit := 110, positionSize := 1 }
        balance := 1000
        regime := some .trendingUp
        existingPosition := none
        strongSetup := true
        shortConsecLosses := 0
        sentimentBullish := false
        atr := 2
        atrPct := 2
        oscScore := 0
        positionPct := 30
        marginRequired := 10
        leverage := 1
        totalRiskPct := 1
        bullTrap := false }).pass = true ∧
    (riskAudit
      { decision :=
          { action := .long, confidence := 80, wscore := 50, entryPrice := 100,
            stopLoss := 105, takeProfit := 110, positionSize := 1 }
        balance := 1000
        regime := some .trendingUp
        existingPosition := none
        strongSetup := true
        shortConsecLosses := 0
        sentimentBullish := false
        atr := 2
        atrPct := 2
        oscScore := 0
        positionPct := 30
        marginRequired := 10
        leverage := 1
        totalRiskPct := 1
        bullTrap := false }).correctedStop = some (100 - slDistance 100 2) :=
  c7_wrong_side_pass _ rfl (by norm_num)
    (by norm_num)
    (by unfold regimeGateBlocks; decide)
    (by unfold positionGateBlocks; decide)
    (by unfold oscGateBlocks; decide)
    (by unfold rrBlocks rewardOf riskOf; norm_num)
    rfl
    (by unfold marginBlocks; norm_num)
    (by unfold leverageBlocks; norm_num)
    (by unfold trapBlocks; decide)

/-- C10: when the broker-connect request throws, `connectWithTotp` (with a
6-digit code entered) still marks the matching broker account connected and
closes the TOTP modal — the account list and modal state after the failure
equal those after a successful connection, so the error is presented like a
success and the account-list state is rewritten, not left unchanged. -/
theorem c10_catch_marks_connected (s : SettingsState)
    (h : s.totpCode.length = 6) :
    (connectWithTotp s .threw).brokerAccounts =
        markConnected s.brokerAccounts s.connectingAccountId ∧
      (connectWithTotp s .threw).showTotpModal = false ∧
      (connectWithTotp s .threw).brokerAccounts =
        (connectWithTotp s .ok).brokerAccounts ∧
      (connectWithTotp s .threw).showTotpModal =
        (connectWithTotp s .ok).showTotpModal := by
  simp [connectWithTotp, h]

/-- C10 witness: with one disconnected account selected and a 6-digit code,
the thrown-fetch branch leaves the account marked connected and the modal
closed, matching the successful branch. -/
theorem c10_witness :
    (connectWithTotp ⟨[⟨1, "angelone", "disconnected"⟩], true, false, "", some 1,
        "123456"⟩ .threw).brokerAccounts =
        markConnected [⟨1, "angelone", "disconnected"⟩] (some 1) ∧
      (connectWithTotp ⟨[⟨1, "angelone", "disconnected"⟩], true, false, "", some 1,
        "123456"⟩ .threw).showTotpModal = false ∧
      (connectWithTotp ⟨[⟨1, "angelone", "disconnected"⟩], true, false, "", some 1,
        "123456"⟩ .threw).brokerAccounts =
        (connectWithTotp ⟨[⟨1, "angelone", "disconnected"⟩], true, false, "", some 1,
          "123456"⟩ .ok).brokerAccounts ∧
      (connectWithTotp ⟨[⟨1, "angelone", "disconnected"⟩], true, false, "", some 1,
        "123456"⟩ .threw).showTotpModal =
        (connectWithTotp ⟨[⟨1, "angelone", "disconnected"⟩], true, false, "", some 1,
          "123456"⟩ .ok).showTotpModal :=
  c10_catch_marks_connected _ rfl
